import Mathlib

/-!
Shallow embedding of the ornament firmware core
(`src/string_controller.rs`, `src/power.rs`, `src/hardware.rs`, `src/main.rs`).

GPIO line levels are modelled as `Bool` (`true` = high, `false` = low).
The SN74LVC1G74 D flip-flop driven by each `FlipFlop` GPIO set is modelled
by an extra field `q` holding the latch output, updated according to the
chip behaviour documented in the source comments: `PRE_N` low asynchronously
forces `Q` high, `CLR_N` low asynchronously forces `Q` low, and a rising
edge on `CLK` (with both async controls released) latches `D` into `Q`.
-/

/-- GPIO state of one SN74LVC1G74 D flip-flop driver (`FlipFlop` in
`src/string_controller.rs`), together with the chip's latched output `q`.
The four line fields mirror the Rust struct fields; `q` is the hardware
output driven by them (high = LED string on). -/
structure FlipFlop where
  /-- Active-low preset input (forces Q high when low) -/
  fpre_n : Bool
  /-- Active-low clear input (forces Q low when low) -/
  fclr_n : Bool
  /-- Data input (value to be clocked into Q) -/
  fdata : Bool
  /-- Clock input (rising edge latches D to Q) -/
  fclk : Bool
  /-- Latched Q output of the chip (not a Rust field: hardware state implied
  by the source's documentation of the SN74LVC1G74) -/
  q : Bool
deriving DecidableEq

/-- Asynchronous preset/clear response of the chip after a write to `PRE_N`
or `CLR_N`: `PRE_N` low forces `q` high (datasheet gives both outputs high
when both async inputs are low, so `PRE_N` is checked first), else `CLR_N`
low forces `q` low, else `q` is held. -/
def FlipFlop.chipQ (ff : FlipFlop) : FlipFlop :=
  { ff with q := if ff.fpre_n = false then true
                 else if ff.fclr_n = false then false
                 else ff.q }

/-- GPIO write to the `PRE_N` line, followed by the chip's async response. -/
def FlipFlop.setPre (ff : FlipFlop) (l : Bool) : FlipFlop :=
  FlipFlop.chipQ { ff with fpre_n := l }

/-- GPIO write to the `CLR_N` line, followed by the chip's async response. -/
def FlipFlop.setClr (ff : FlipFlop) (l : Bool) : FlipFlop :=
  FlipFlop.chipQ { ff with fclr_n := l }

/-- GPIO write to the `D` (data) line. Data changes alone do not latch:
the chip is edge-triggered on `CLK`. -/
def FlipFlop.setData (ff : FlipFlop) (l : Bool) : FlipFlop :=
  { ff with fdata := l }

/-- GPIO write to the `CLK` line. On a rising edge (`CLK` was low, written
high) with both async controls released, `D` is latched into `Q`. -/
def FlipFlop.setClk (ff : FlipFlop) (l : Bool) : FlipFlop :=
  { ff with fclk := l,
            q := if !ff.fclk && l && ff.fpre_n && ff.fclr_n then ff.fdata else ff.q }

/-- `FlipFlop::release_reset`: sets `CLR_N` high, then `PRE_N` high,
deactivating both async controls. -/
def FlipFlop.release_reset (ff : FlipFlop) : FlipFlop :=
  (ff.setClr true).setPre true

/-- `FlipFlop::clock_q_high`: sets `D` high, then pulses `CLK` high then low. -/
def FlipFlop.clock_q_high (ff : FlipFlop) : FlipFlop :=
  ((ff.setData true).setClk true).setClk false

/-- `FlipFlop::clock_q_low`: sets `D` low, then pulses `CLK` high then low. -/
def FlipFlop.clock_q_low (ff : FlipFlop) : FlipFlop :=
  ((ff.setData false).setClk true).setClk false

/-- `ActiveString` state machine from `src/string_controller.rs`
(spec names: BothOff, RedOn, RedOff, GreenOn). `GreenOff` is the
`#[default]` variant. -/
inductive ActiveString where
  /-- Green string is off, transitioning to red (spec: BothOff) -/
  | GreenOff
  /-- Red string is active (spec: RedOn) -/
  | Red
  /-- Red string is off, transitioning to green (spec: RedOff) -/
  | RedOff
  /-- Green string is active (spec: GreenOn) -/
  | Green
deriving DecidableEq

/-- `StringController` from `src/string_controller.rs`. The two unused
feedback `Input` pins (`_red_string`, `_green_string`) are never read by
the source and are omitted. -/
structure StringController where
  /-- Flip-flop controlling red LED string (LSTR1) -/
  red_flop : FlipFlop
  /-- Flip-flop controlling green LED string (LSTR2) -/
  green_flop : FlipFlop
  /-- Current state in the alternating pattern -/
  active_string : ActiveString
deriving DecidableEq

/-- `StringController::reset`: releases preset/clear on both flip-flops,
clocks both to Q = low, and sets the state machine to its default
(`GreenOff`). The red and green flip-flops are disjoint GPIO sets, so the
source's interleaving (release red, release green, clock red, clock green)
equals this per-flop composition. -/
def StringController.reset (sc : StringController) : StringController :=
  { red_flop := (sc.red_flop.release_reset).clock_q_low,
    green_flop := (sc.green_flop.release_reset).clock_q_low,
    active_string := ActiveString.GreenOff }

/-- `StringController::activate_next_string`: one step of the
`GreenOff → Red → RedOff → Green → GreenOff` cycle, clocking the
corresponding flip-flop. -/
def StringController.activate_next_string (sc : StringController) : StringController :=
  match sc.active_string with
  | ActiveString.GreenOff =>
      { sc with red_flop := sc.red_flop.clock_q_high, active_string := ActiveString.Red }
  | ActiveString.Red =>
      { sc with red_flop := sc.red_flop.clock_q_low, active_string := ActiveString.RedOff }
  | ActiveString.RedOff =>
      { sc with green_flop := sc.green_flop.clock_q_high, active_string := ActiveString.Green }
  | ActiveString.Green =>
      { sc with green_flop := sc.green_flop.clock_q_low, active_string := ActiveString.GreenOff }

/-- Initial GPIO levels of one flip-flop as configured in
`hardware.rs::Peripherals::new`: `PRE_N` low, `CLR_N` high, `D` low,
`CLK` low. With `PRE_N` asserted the chip forces `Q` high. -/
def initialFlipFlop : FlipFlop :=
  { fpre_n := false, fclr_n := true, fdata := false, fclk := false, q := true }

/-- The `StringController` as constructed in `hardware.rs` (both flip-flops
at their configured initial levels, state machine at its default). -/
def initialStringController : StringController :=
  { red_flop := initialFlipFlop,
    green_flop := initialFlipFlop,
    active_string := ActiveString.GreenOff }

/-- `PowerState` from `src/power.rs` (spec names: MainActive, BackupActive).
`MainPower` is the `#[default]` variant. -/
inductive PowerState where
  /-- Main battery (BT1) is active (spec: MainActive) -/
  | MainPower
  /-- Backup battery (BT2) is active (spec: BackupActive) -/
  | BackupPower
deriving DecidableEq

/-- `PowerController` from `src/power.rs`: the two active-low load-switch
enable lines and the tracked power state. -/
structure PowerController where
  /-- Active-low enable for main battery load switch (Q1, PB1) -/
  main_power_n : Bool
  /-- Active-low enable for backup battery load switch (Q2, PA8) -/
  backup_power_n : Bool
  /-- Current active power source -/
  state : PowerState
deriving DecidableEq

/-- `PowerController::init_main_power`: main enable low (ON), backup enable
high (OFF). -/
def PowerController.init_main_power (pc : PowerController) : PowerController :=
  { pc with main_power_n := false, backup_power_n := true }

/-- `PowerController::switch_to_backup`: backup ON (low) before main OFF
(high). -/
def PowerController.switch_to_backup (pc : PowerController) : PowerController :=
  { pc with backup_power_n := false, main_power_n := true }

/-- `PowerController::switch_to_main`: main ON (low) before backup OFF
(high). -/
def PowerController.switch_to_main (pc : PowerController) : PowerController :=
  { pc with main_power_n := false, backup_power_n := true }

/-- `PowerController::power_transition`: on a low-voltage event, toggle
between the two batteries; otherwise do nothing. -/
def PowerController.power_transition (pc : PowerController) (low_voltage : Bool) :
    PowerController :=
  if low_voltage then
    match pc.state with
    | PowerState.MainPower => { pc.switch_to_backup with state := PowerState.BackupPower }
    | PowerState.BackupPower => { pc.switch_to_main with state := PowerState.MainPower }
  else pc

/-- The `PowerController` as constructed in `hardware.rs`: PB1 low
(main ON), PA8 high (backup OFF), state at its default `MainPower`. -/
def initialPowerController : PowerController :=
  { main_power_n := false, backup_power_n := true, state := PowerState.MainPower }

/-- The power controller right after the startup call to
`init_main_power` in `main.rs`. -/
def powerStart : PowerController :=
  initialPowerController.init_main_power

/-- One observable GPIO write issued by the power controller: a level
written to `main_power_n` (PB1) or to `backup_power_n` (PA8). -/
inductive PowerWrite where
  | mainN (level : Bool)
  | backupN (level : Bool)
deriving DecidableEq

/-- The two enable lines alone (the externally observable outputs of the
power controller). -/
structure PowerLines where
  main_power_n : Bool
  backup_power_n : Bool
deriving DecidableEq

/-- Effect of one GPIO write on the enable lines. -/
def applyPowerWrite (l : PowerLines) : PowerWrite → PowerLines
  | PowerWrite.mainN b => { l with main_power_n := b }
  | PowerWrite.backupN b => { l with backup_power_n := b }

/-- The write sequence of `PowerController::switch_to_backup`, in source
order: `backup_power_n.set_low()` then `main_power_n.set_high()`. -/
def switch_to_backup_writes : List PowerWrite :=
  [PowerWrite.backupN false, PowerWrite.mainN true]

/-- The write sequence of `PowerController::switch_to_main`, in source
order: `main_power_n.set_low()` then `backup_power_n.set_high()`. -/
def switch_to_main_writes : List PowerWrite :=
  [PowerWrite.mainN false, PowerWrite.backupN true]

/-- The ordered list of GPIO writes issued by one
`PowerController::power_transition` call. -/
def PowerController.transitionWrites (pc : PowerController) (low_voltage : Bool) :
    List PowerWrite :=
  if low_voltage then
    match pc.state with
    | PowerState.MainPower => switch_to_backup_writes
    | PowerState.BackupPower => switch_to_main_writes
  else []

/-- Projection of a power controller onto its two enable lines. -/
def PowerController.lines (pc : PowerController) : PowerLines :=
  { main_power_n := pc.main_power_n, backup_power_n := pc.backup_power_n }

/-- Register-level hardware context of the PVD interrupt handler in
`src/power.rs`: the EXTI line-16 pending flag, the `PWR_CSR.PVDO`
comparator output bit, and the contents of the `PVD_SIGNAL` single-slot
channel (`none` = no unconsumed value). -/
structure PvdHw where
  /-- EXTI PR pending bit for line 16 -/
  pendingPvd : Bool
  /-- PWR CSR PVDO bit (true = VDD below threshold) -/
  pvdo : Bool
  /-- Contents of the `PVD_SIGNAL` single-slot channel -/
  slot : Option Bool
deriving DecidableEq

/-- Observable steps taken by the PVD interrupt handler. -/
inductive PvdAction where
  | clearPending (line : Nat)
  | readPvdo
  | signalChannel (v : Bool)
deriving DecidableEq

/-- EXTI line number for the PVD interrupt (`PVD_EXTI_LINE` in
`src/power.rs`, fixed at line 16 on STM32). -/
def PVD_EXTI_LINE : Nat := 16

/-- `exti.pr(..).modify(|w| w.set_line(line, true))`: writing 1 to a
pending-register bit clears that pending flag. -/
def extiClearPending (hw : PvdHw) (line : Nat) : PvdHw × PvdAction :=
  (if line = PVD_EXTI_LINE then { hw with pendingPvd := false } else hw,
   PvdAction.clearPending line)

/-- `pwr.csr().read().pvdo()`: reads the comparator output bit. -/
def pwrReadPvdo (hw : PvdHw) : Bool × PvdAction :=
  (hw.pvdo, PvdAction.readPvdo)

/-- `PVD_SIGNAL.signal(v)`. Modelled from the spec's single-slot channel
(`embassy_sync::signal::Signal`, an external dependency): storing a value
overwrites any unconsumed prior value. -/
def signalWrite (hw : PvdHw) (v : Bool) : PvdHw × PvdAction :=
  ({ hw with slot := some v }, PvdAction.signalChannel v)

/-- The `PVD` interrupt handler from `src/power.rs`: clear the pending
flag on EXTI line 16, read `PVDO`, publish the boolean to `PVD_SIGNAL`.
Returns the final hardware state and the ordered action trace. -/
def PVD (hw : PvdHw) : PvdHw × List PvdAction :=
  let r1 := extiClearPending hw PVD_EXTI_LINE
  let r2 := pwrReadPvdo r1.1
  let r3 := signalWrite r1.1 r2.1
  (r3.1, [r1.2, r2.2, r3.2])

/-- Startup-relevant events of `main` in `src/main.rs`, in the order the
source performs them. `unmaskPvdInterrupt` is the `NVIC::unmask` call that
ends `setup_pvd`; `firstLedTick` is the first `activate_next_string` call
of the main loop. -/
inductive StartupEvent where
  /-- `setup_pvd()` ends by unmasking the PVD interrupt in the NVIC -/
  | unmaskPvdInterrupt
  /-- `Peripherals::new(p)` -/
  | constructPeripherals
  /-- `peripherals.pwr_ctrl.init_main_power()` -/
  | initMainPower
  /-- `peripherals.str_ctrl.reset()` -/
  | resetLedStrings
  /-- `spawner.spawn(power_monitor_task(..))` -/
  | spawnPowerMonitorTask
  /-- first `peripherals.str_ctrl.activate_next_string()` in the loop -/
  | firstLedTick
deriving DecidableEq

/-- The straight-line order of the startup events in `main`
(`src/main.rs` lines 150-181): `setup_pvd` (ending in the NVIC unmask)
runs first, then peripheral construction, `init_main_power`, `reset`,
the task spawn, and finally the first LED tick. -/
def mainStartupSequence : List StartupEvent :=
  [StartupEvent.unmaskPvdInterrupt, StartupEvent.constructPeripherals,
   StartupEvent.initMainPower, StartupEvent.resetLedStrings,
   StartupEvent.spawnPowerMonitorTask, StartupEvent.firstLedTick]

/-- Position of a startup event in the startup sequence. -/
def startupIdx (e : StartupEvent) : Nat :=
  mainStartupSequence.findIdx (fun x => x = e)

/-- The operations the firmware ever performs on a `StringController`. -/
inductive SeqOp where
  | reset
  | advance
deriving DecidableEq

/-- Apply one `StringController` operation. -/
def applySeqOp (sc : StringController) : SeqOp → StringController
  | SeqOp.reset => sc.reset
  | SeqOp.advance => sc.activate_next_string

/-- A `StringController` state is reachable when some sequence of `reset`
and `activate_next_string` calls produces it from the controller as
constructed in `hardware.rs`. -/
def SeqReachable (sc : StringController) : Prop :=
  ∃ ops : List SeqOp, List.foldl applySeqOp initialStringController ops = sc

/-- The spec's state-output invariant for the power controller: the enable
lines agree with the stored state (enables are active-low). -/
def linesAgree (pc : PowerController) : Prop :=
  (pc.state = PowerState.MainPower →
    pc.main_power_n = false ∧ pc.backup_power_n = true) ∧
  (pc.state = PowerState.BackupPower →
    pc.main_power_n = true ∧ pc.backup_power_n = false)

/-- Exactly one battery enabled (its active-low enable line driven low). -/
def exactlyOneEnabled (pc : PowerController) : Prop :=
  (pc.main_power_n = false ∧ pc.backup_power_n = true) ∨
  (pc.main_power_n = true ∧ pc.backup_power_n = false)

/-- The flip-flop GPIO/latch state produced by `release_reset` followed by
`clock_q_low` from any clock-low prior state. -/
def resetFlopState : FlipFlop :=
  { fpre_n := true, fclr_n := true, fdata := false, fclk := false, q := false }

/-- The controller state produced by `StringController::reset` from any
clock-low prior state. -/
def resetControllerState : StringController :=
  { red_flop := resetFlopState, green_flop := resetFlopState,
    active_string := ActiveString.GreenOff }

/-- The latch-output pair (red, green) the source associates with each
sequencer state (high = LED string on). -/
def stringTargets : ActiveString → Bool × Bool
  | ActiveString.GreenOff => (false, false)
  | ActiveString.Red => (true, false)
  | ActiveString.RedOff => (false, false)
  | ActiveString.Green => (false, true)

/-- A flip-flop ready for normal clocked operation: async controls
released and clock idle low. -/
def flopReady (ff : FlipFlop) : Prop :=
  ff.fpre_n = true ∧ ff.fclr_n = true ∧ ff.fclk = false

/-- Latch outputs agree with the sequencer state. -/
def ledOutputsInv (sc : StringController) : Prop :=
  sc.red_flop.q = (stringTargets sc.active_string).1 ∧
  sc.green_flop.q = (stringTargets sc.active_string).2

/-- Invariant maintained by the LED sequencer between calls. -/
def seqInv (sc : StringController) : Prop :=
  flopReady sc.red_flop ∧ flopReady sc.green_flop ∧ ledOutputsInv sc

instance (pc : PowerController) : Decidable (linesAgree pc) := by
  unfold linesAgree
  infer_instance

/-- The pure state-machine step of `activate_next_string`, forgetting the
GPIO side effects. -/
def nextActiveString : ActiveString → ActiveString
  | ActiveString.GreenOff => ActiveString.Red
  | ActiveString.Red => ActiveString.RedOff
  | ActiveString.RedOff => ActiveString.Green
  | ActiveString.Green => ActiveString.GreenOff

/-- The fixed four-phase cycle, in order (spec names:
BothOff, RedOn, RedOff, GreenOn). -/
def ledCycle : List ActiveString :=
  [ActiveString.GreenOff, ActiveString.Red, ActiveString.RedOff, ActiveString.Green]

lemma advance_active_string (sc : StringController) :
    (sc.activate_next_string).active_string = nextActiveString sc.active_string := by
  cases h : sc.active_string <;>
    simp [StringController.activate_next_string, nextActiveString, h]

lemma iterate_active_string (n : Nat) (sc : StringController) :
    (StringController.activate_next_string^[n] sc).active_string
      = nextActiveString^[n] sc.active_string := by
  induction n generalizing sc with
  | zero => rfl
  | succ k ih =>
      rw [Function.iterate_succ_apply, Function.iterate_succ_apply, ih,
        advance_active_string]

lemma nextActiveString_phase (n : Nat) :
    nextActiveString^[n] ActiveString.GreenOff
      = ledCycle.getD (n % 4) ActiveString.GreenOff := by
  induction n with
  | zero => rfl
  | succ k ih =>
      rw [Function.iterate_succ_apply', ih]
      have hmod : (k + 1) % 4 = (k % 4 + 1) % 4 := by omega
      have h4 : k % 4 = 0 ∨ k % 4 = 1 ∨ k % 4 = 2 ∨ k % 4 = 3 := by omega
      rcases h4 with h | h | h | h <;>
        simp [h, hmod, ledCycle, nextActiveString]

/-- C1: starting from a fresh `reset()`, the sequencer state after `n`
`activate_next_string` calls is the phase at position `n mod 4` of the
fixed cycle `[GreenOff, Red, RedOff, Green]` (spec names:
BothOff, RedOn, RedOff, GreenOn); in particular after 1 call `Red`, after
4 calls `GreenOff`, and after 100 calls `GreenOff`. -/
theorem led_sequencer_cycle (sc : StringController) (n : Nat) :
    (StringController.activate_next_string^[n] sc.reset).active_string
      = ledCycle.getD (n % 4) ActiveString.GreenOff := by
  rw [iterate_active_string]
  have hreset : sc.reset.active_string = ActiveString.GreenOff := rfl
  rw [hreset, nextActiveString_phase]

lemma power_transition_true_state (pc : PowerController) :
    (pc.power_transition true).state
      = (match pc.state with
         | PowerState.MainPower => PowerState.BackupPower
         | PowerState.BackupPower => PowerState.MainPower) := by
  cases pc with
  | mk mn bn st => cases st <;> rfl

/-- C2: starting from `init_main_power` (state `MainPower`), after `n`
calls of `power_transition true` the state is `MainPower` when `n` is
even and `BackupPower` when `n` is odd. -/
theorem failover_alternation (n : Nat) :
    ((fun pc => PowerController.power_transition pc true)^[n] powerStart).state
      = if n % 2 = 0 then PowerState.MainPower else PowerState.BackupPower := by
  induction n with
  | zero => rfl
  | succ k ih =>
      rw [Function.iterate_succ_apply']
      rw [show ((fun pc => PowerController.power_transition pc true)
          ((fun pc => PowerController.power_transition pc true)^[k] powerStart)).state
          = _ from power_transition_true_state _]
      rw [ih]
      have hmod : (k + 1) % 2 = (k % 2 + 1) % 2 := by omega
      have h2 : k % 2 = 0 ∨ k % 2 = 1 := by omega
      rcases h2 with h | h <;> simp [h, hmod]

lemma power_transition_false (pc : PowerController) :
    pc.power_transition false = pc := rfl

/-- C6: `power_transition false` is a no-op for every controller state and
any number of consecutive calls: state and both enable lines unchanged. -/
theorem recovered_event_noop (pc : PowerController) (k : Nat) :
    (fun p => PowerController.power_transition p false)^[k] pc = pc := by
  induction k with
  | zero => rfl
  | succ m ih => rw [Function.iterate_succ_apply', ih, power_transition_false]

/-- C4 counterexample: processing the event sequence
`[true, false, true]` from `powerStart` (state `MainPower`) leaves the
controller in state `MainPower`, not `BackupPower` as the claim states. -/
theorem failover_scenario_counterexample :
    (List.foldl PowerController.power_transition powerStart [true, false, true]).state
        = PowerState.MainPower ∧
    (List.foldl PowerController.power_transition powerStart [true, false, true]).state
        ≠ PowerState.BackupPower := by decide

/-- C4 (amended): the sequence low, recovered, low from `MainPower` ends in
state `MainPower`: the recovered event is ignored (the whole controller is
unchanged by it) and the second low-voltage event toggles back from
`BackupPower` to `MainPower`. -/
theorem failover_scenario_amended :
    (List.foldl PowerController.power_transition powerStart [true, false, true]).state
        = PowerState.MainPower ∧
    (powerStart.power_transition true).power_transition false
        = powerStart.power_transition true ∧
    (powerStart.power_transition true).state = PowerState.BackupPower := by decide

lemma linesAgree_preserved (pc : PowerController) (h : linesAgree pc) (b : Bool) :
    linesAgree (pc.power_transition b) := by
  cases b
  · rw [power_transition_false]; exact h
  · obtain ⟨hm, hb⟩ := h
    cases pc with
    | mk mn bn st =>
        cases st
        · obtain ⟨h1, h2⟩ := hm rfl
          subst h1; subst h2
          simp [PowerController.power_transition, PowerController.switch_to_backup,
            linesAgree]
        · obtain ⟨h1, h2⟩ := hb rfl
          subst h1; subst h2
          simp [PowerController.power_transition, PowerController.switch_to_main,
            linesAgree]

lemma linesAgree_foldl (evs : List Bool) :
    ∀ pc : PowerController, linesAgree pc →
      linesAgree (List.foldl PowerController.power_transition pc evs) := by
  induction evs with
  | nil => intro pc h; exact h
  | cons e t ih => intro pc h; exact ih _ (linesAgree_preserved pc h e)

/-- C9: after `init_main_power` and after every completed
`power_transition` call (any sequence of boolean events), the enable lines
agree with the stored state, and exactly one battery is enabled. -/
theorem power_state_output_invariant (evs : List Bool) :
    linesAgree (List.foldl PowerController.power_transition powerStart evs) ∧
    exactlyOneEnabled (List.foldl PowerController.power_transition powerStart evs) := by
  have h := linesAgree_foldl evs powerStart (by decide)
  refine ⟨h, ?_⟩
  obtain ⟨hm, hb⟩ := h
  cases hst : (List.foldl PowerController.power_transition powerStart evs).state
  · exact Or.inl (hm hst)
  · exact Or.inr ⟨(hb hst).1, (hb hst).2⟩

/-- C3: one `power_transition true` call, from any state satisfying the
state-output invariant, issues its two GPIO writes in make-before-break
order (assert the newly selected enable line first, then de-assert the old
one), and no intermediate point of the write sequence has both active-low
enable lines de-asserted (both high). -/
theorem make_before_break (pc : PowerController) (h : linesAgree pc) :
    (pc.state = PowerState.MainPower →
      pc.transitionWrites true = [PowerWrite.backupN false, PowerWrite.mainN true]) ∧
    (pc.state = PowerState.BackupPower →
      pc.transitionWrites true = [PowerWrite.mainN false, PowerWrite.backupN true]) ∧
    ∀ l ∈ List.scanl applyPowerWrite pc.lines (pc.transitionWrites true),
      ¬(l.main_power_n = true ∧ l.backup_power_n = true) := by
  obtain ⟨hm, hb⟩ := h
  cases pc with
  | mk mn bn st =>
      cases st
      · obtain ⟨h1, h2⟩ := hm rfl
        subst h1; subst h2
        decide
      · obtain ⟨h1, h2⟩ := hb rfl
        subst h1; subst h2
        decide

/-- C3 witness: the theorem applied to the controller right after startup
initialization. -/
theorem make_before_break_witness :
    linesAgree powerStart ∧
    ((powerStart.state = PowerState.MainPower →
        powerStart.transitionWrites true
          = [PowerWrite.backupN false, PowerWrite.mainN true]) ∧
     (powerStart.state = PowerState.BackupPower →
        powerStart.transitionWrites true
          = [PowerWrite.mainN false, PowerWrite.backupN true]) ∧
     ∀ l ∈ List.scanl applyPowerWrite powerStart.lines (powerStart.transitionWrites true),
       ¬(l.main_power_n = true ∧ l.backup_power_n = true)) :=
  ⟨by decide, make_before_break powerStart (by decide)⟩

/-- C7: every execution of the `PVD` handler performs, in order, the clear
of the EXTI line-16 pending flag, the read of the comparator output bit,
and the publish of that bit to the single-slot channel; the final channel
slot holds exactly the comparator bit, overwriting any unconsumed prior
value, and the pending flag ends cleared. -/
theorem pvd_handler_steps (hw : PvdHw) :
    (PVD hw).2 = [PvdAction.clearPending 16, PvdAction.readPvdo,
      PvdAction.signalChannel hw.pvdo] ∧
    (PVD hw).1.slot = some hw.pvdo ∧
    (PVD hw).1.pendingPvd = false ∧
    (PVD hw).1.pvdo = hw.pvdo := by
  cases hw with
  | mk p v s => exact ⟨rfl, rfl, rfl, rfl⟩

/-- C5 counterexample: the claimed startup ordering is false for
`main` in `src/main.rs`: the NVIC unmask of the PVD interrupt (the last
step of `setup_pvd`) happens at position 0 of the startup sequence,
before `init_main_power` (position 2) and `reset` (position 3), so the
comparator interrupt is not unmasked only after both have completed. -/
theorem startup_order_counterexample :
    ¬(startupIdx StartupEvent.initMainPower < startupIdx StartupEvent.firstLedTick ∧
      startupIdx StartupEvent.resetLedStrings < startupIdx StartupEvent.firstLedTick ∧
      startupIdx StartupEvent.initMainPower < startupIdx StartupEvent.unmaskPvdInterrupt ∧
      startupIdx StartupEvent.resetLedStrings < startupIdx StartupEvent.unmaskPvdInterrupt) := by
  decide

/-- C5 (amended): in the startup sequence of `main`, `init_main_power` and
`reset` both run before the power-monitor task is spawned and before the
first LED tick, but the PVD comparator interrupt is unmasked (at the end
of `setup_pvd`) strictly before both initializations, not after them. -/
theorem startup_order_amended :
    startupIdx StartupEvent.initMainPower < startupIdx StartupEvent.spawnPowerMonitorTask ∧
    startupIdx StartupEvent.resetLedStrings < startupIdx StartupEvent.spawnPowerMonitorTask ∧
    startupIdx StartupEvent.initMainPower < startupIdx StartupEvent.firstLedTick ∧
    startupIdx StartupEvent.resetLedStrings < startupIdx StartupEvent.firstLedTick ∧
    startupIdx StartupEvent.unmaskPvdInterrupt < startupIdx StartupEvent.initMainPower ∧
    startupIdx StartupEvent.unmaskPvdInterrupt < startupIdx StartupEvent.resetLedStrings := by
  decide

lemma flop_reset_canonical (ff : FlipFlop) (h : ff.fclk = false) :
    (ff.release_reset).clock_q_low = resetFlopState := by
  cases ff with
  | mk p c d k q =>
      obtain rfl : k = false := h
      cases p <;> cases c <;> cases d <;> cases q <;> rfl

lemma reset_canonical (sc : StringController)
    (hr : sc.red_flop.fclk = false) (hg : sc.green_flop.fclk = false) :
    sc.reset = resetControllerState := by
  unfold StringController.reset resetControllerState
  rw [flop_reset_canonical sc.red_flop hr, flop_reset_canonical sc.green_flop hg]

lemma applySeqOp_clks_low (sc : StringController) (op : SeqOp)
    (h : sc.red_flop.fclk = false ∧ sc.green_flop.fclk = false) :
    (applySeqOp sc op).red_flop.fclk = false ∧
    (applySeqOp sc op).green_flop.fclk = false := by
  cases op
  · exact ⟨rfl, rfl⟩
  · cases hs : sc.active_string
    · simp only [applySeqOp, StringController.activate_next_string, hs]
      exact ⟨rfl, h.2⟩
    · simp only [applySeqOp, StringController.activate_next_string, hs]
      exact ⟨rfl, h.2⟩
    · simp only [applySeqOp, StringController.activate_next_string, hs]
      exact ⟨h.1, rfl⟩
    · simp only [applySeqOp, StringController.activate_next_string, hs]
      exact ⟨h.1, rfl⟩

lemma foldl_clks_low (ops : List SeqOp) :
    ∀ sc : StringController,
      (sc.red_flop.fclk = false ∧ sc.green_flop.fclk = false) →
      ((List.foldl applySeqOp sc ops).red_flop.fclk = false ∧
       (List.foldl applySeqOp sc ops).green_flop.fclk = false) := by
  induction ops with
  | nil => intro sc h; exact h
  | cons op t ih => intro sc h; exact ih _ (applySeqOp_clks_low sc op h)

lemma reachable_clks_low (sc : StringController) (h : SeqReachable sc) :
    sc.red_flop.fclk = false ∧ sc.green_flop.fclk = false := by
  obtain ⟨ops, rfl⟩ := h
  exact foldl_clks_low ops initialStringController ⟨rfl, rfl⟩

/-- C8: for every reachable prior controller state, `reset` is idempotent
(calling it twice equals calling it once), and the state it produces has
the sequencer at `GreenOff`, both latch outputs low, and both preset/clear
lines released (high). -/
theorem reset_idempotent (sc : StringController) (h : SeqReachable sc) :
    sc.reset.reset = sc.reset ∧
    sc.reset.active_string = ActiveString.GreenOff ∧
    sc.reset.red_flop.q = false ∧ sc.reset.green_flop.q = false ∧
    sc.reset.red_flop.fpre_n = true ∧ sc.reset.red_flop.fclr_n = true ∧
    sc.reset.green_flop.fpre_n = true ∧ sc.reset.green_flop.fclr_n = true := by
  obtain ⟨hr, hg⟩ := reachable_clks_low sc h
  rw [reset_canonical sc hr hg]
  exact ⟨reset_canonical resetControllerState rfl rfl, rfl, rfl, rfl, rfl, rfl, rfl, rfl⟩

/-- C8 witness: the theorem applied to the controller as constructed in
`hardware.rs` (reachable by the empty call sequence). -/
theorem reset_idempotent_witness :
    SeqReachable initialStringController ∧
    (initialStringController.reset.reset = initialStringController.reset ∧
     initialStringController.reset.active_string = ActiveString.GreenOff ∧
     initialStringController.reset.red_flop.q = false ∧
     initialStringController.reset.green_flop.q = false ∧
     initialStringController.reset.red_flop.fpre_n = true ∧
     initialStringController.reset.red_flop.fclr_n = true ∧
     initialStringController.reset.green_flop.fpre_n = true ∧
     initialStringController.reset.green_flop.fclr_n = true) :=
  ⟨⟨[], rfl⟩, reset_idempotent initialStringController ⟨[], rfl⟩⟩

lemma clock_q_high_ready (ff : FlipFlop) (h : flopReady ff) :
    ff.clock_q_high
      = { fpre_n := true, fclr_n := true, fdata := true, fclk := false, q := true } := by
  obtain ⟨h1, h2, h3⟩ := h
  cases ff with
  | mk p c d k q =>
      obtain rfl : p = true := h1
      obtain rfl : c = true := h2
      obtain rfl : k = false := h3
      cases d <;> cases q <;> rfl

lemma clock_q_low_ready (ff : FlipFlop) (h : flopReady ff) :
    ff.clock_q_low = resetFlopState := by
  obtain ⟨h1, h2, h3⟩ := h
  cases ff with
  | mk p c d k q =>
      obtain rfl : p = true := h1
      obtain rfl : c = true := h2
      obtain rfl : k = false := h3
      cases d <;> cases q <;> rfl

lemma seqInv_advance (sc : StringController) (h : seqInv sc) :
    seqInv sc.activate_next_string := by
  obtain ⟨hr, hg, hq1, hq2⟩ := h
  cases hs : sc.active_string
  · simp only [StringController.activate_next_string, hs]
    rw [hs] at hq1 hq2
    refine ⟨?_, hg, ?_, ?_⟩
    · rw [clock_q_high_ready sc.red_flop hr]; exact ⟨rfl, rfl, rfl⟩
    · show (sc.red_flop.clock_q_high).q = _
      rw [clock_q_high_ready sc.red_flop hr]; rfl
    · exact hq2
  · simp only [StringController.activate_next_string, hs]
    rw [hs] at hq1 hq2
    refine ⟨?_, hg, ?_, ?_⟩
    · rw [clock_q_low_ready sc.red_flop hr]; exact ⟨rfl, rfl, rfl⟩
    · show (sc.red_flop.clock_q_low).q = _
      rw [clock_q_low_ready sc.red_flop hr]; rfl
    · exact hq2
  · simp only [StringController.activate_next_string, hs]
    rw [hs] at hq1 hq2
    refine ⟨hr, ?_, ?_, ?_⟩
    · rw [clock_q_high_ready sc.green_flop hg]; exact ⟨rfl, rfl, rfl⟩
    · exact hq1
    · show (sc.green_flop.clock_q_high).q = _
      rw [clock_q_high_ready sc.green_flop hg]; rfl
  · simp only [StringController.activate_next_string, hs]
    rw [hs] at hq1 hq2
    refine ⟨hr, ?_, ?_, ?_⟩
    · rw [clock_q_low_ready sc.green_flop hg]; exact ⟨rfl, rfl, rfl⟩
    · exact hq1
    · show (sc.green_flop.clock_q_low).q = _
      rw [clock_q_low_ready sc.green_flop hg]; rfl

lemma seqInv_iterate (n : Nat) :
    seqInv (StringController.activate_next_string^[n] initialStringController.reset) := by
  induction n with
  | zero => exact ⟨⟨rfl, rfl, rfl⟩, ⟨rfl, rfl, rfl⟩, rfl, rfl⟩
  | succ k ih =>
      rw [Function.iterate_succ_apply']
      exact seqInv_advance _ ih

/-- C10: each `activate_next_string` call issues exactly one
data-set-then-clock-pulse sequence on one flip-flop and leaves the other
flip-flop (all its control lines and its latch output) unchanged; and,
starting from `reset()` of the controller constructed in `hardware.rs`,
the red and green latch outputs are never both high. -/
theorem led_advance_frame_and_exclusion :
    (∀ sc : StringController,
        (sc.activate_next_string.green_flop = sc.green_flop ∧
          (sc.activate_next_string.red_flop = sc.red_flop.clock_q_high ∨
           sc.activate_next_string.red_flop = sc.red_flop.clock_q_low)) ∨
        (sc.activate_next_string.red_flop = sc.red_flop ∧
          (sc.activate_next_string.green_flop = sc.green_flop.clock_q_high ∨
           sc.activate_next_string.green_flop = sc.green_flop.clock_q_low))) ∧
    (∀ n : Nat,
        ¬((StringController.activate_next_string^[n]
              initialStringController.reset).red_flop.q = true ∧
          (StringController.activate_next_string^[n]
              initialStringController.reset).green_flop.q = true)) := by
  constructor
  · intro sc
    cases hs : sc.active_string
    · exact Or.inl ⟨by simp only [StringController.activate_next_string, hs],
        Or.inl (by simp only [StringController.activate_next_string, hs])⟩
    · exact Or.inl ⟨by simp only [StringController.activate_next_string, hs],
        Or.inr (by simp only [StringController.activate_next_string, hs])⟩
    · exact Or.inr ⟨by simp only [StringController.activate_next_string, hs],
        Or.inl (by simp only [StringController.activate_next_string, hs])⟩
    · exact Or.inr ⟨by simp only [StringController.activate_next_string, hs],
        Or.inr (by simp only [StringController.activate_next_string, hs])⟩
  · intro n hcontra
    obtain ⟨hc1, hc2⟩ := hcontra
    obtain ⟨-, -, hq1, hq2⟩ := seqInv_iterate n
    cases hs : (StringController.activate_next_string^[n]
        initialStringController.reset).active_string <;>
      rw [hs] at hq1 hq2 <;> simp [stringTargets, hc1, hc2] at hq1 hq2
